import Mathlib

/-
Verification of the CSV-ingestion endpoint of caiohrmm/trabmarinke.

The row validator `processCsvRow` is embedded from its JavaScript source:

  function processCsvRow(row) {
    const name = row.name?.trim();
    const age = row.age?.trim();
    const email = row.email?.trim();
    if (!name || !age || !email) { return null; }
    return { name, age, email };
  }

Strings are modelled as lists of characters; `trim` removes leading and
trailing whitespace as JavaScript does.  A CSV field that is absent from a
row is `none`; optional chaining `row.f?.trim()` becomes `Option.map trim`.
-/

/-- A JavaScript string, modelled as its list of characters. -/
abbrev Str := List Char

/-- The whitespace class used by JavaScript `String.prototype.trim`. -/
def isWS (c : Char) : Bool := c.isWhitespace

/-- JavaScript `s.trim()`: drop leading whitespace, then trailing whitespace. -/
def trim (s : Str) : Str := List.rdropWhile isWS (List.dropWhile isWS s)

/-- One parsed CSV row as seen by `processCsvRow`: the three recognized
columns, each either a string value or absent (`none`, i.e. `undefined`). -/
structure RawRow where
  name : Option Str
  age : Option Str
  email : Option Str
deriving DecidableEq

/-- The normalized record `{ name, age, email }` returned on success. -/
structure PersonRecord where
  name : Str
  age : Str
  email : Str
deriving DecidableEq

/-- JavaScript falsiness of `row.f?.trim()`: `undefined` (field absent) and
the empty string are falsy; every non-empty string is truthy. -/
def falsy : Option Str → Bool
  | none => true
  | some s => s.isEmpty

/-- Embedding of `processCsvRow`: trim the three fields through optional
chaining, reject if any is falsy, otherwise return the trimmed record. -/
def processCsvRow (row : RawRow) : Option PersonRecord :=
  let name := row.name.map trim
  let age := row.age.map trim
  let email := row.email.map trim
  if falsy name || falsy age || falsy email then
    none
  else
    some ⟨name.getD [], age.getD [], email.getD []⟩

/-- A dynamically-typed JavaScript value as far as `row.f?.trim()` can
distinguish them: nullish (`null` or `undefined`), a string, or any other
value (number, boolean, object, ...), which has no `trim` method. -/
inductive JSVal
  | nullish
  | str (s : Str)
  | nonString
deriving DecidableEq

/-- A row whose field values are arbitrary JavaScript values. -/
structure DynRow where
  name : JSVal
  age : JSVal
  email : JSVal
deriving DecidableEq

/-- Evaluation of `v?.trim()`: nullish short-circuits to `undefined`; a
string is trimmed; any other value makes the call throw a TypeError. -/
def trimCall : JSVal → Except Unit (Option Str)
  | .nullish => .ok none
  | .str s => .ok (some (trim s))
  | .nonString => .error ()

/-- `processCsvRow` on a dynamically-typed argument.  A nullish argument
throws (property access on `null`/`undefined`); otherwise the three field
trims are evaluated, any of which may throw, before the falsiness test. -/
def processCsvRowDyn : Option DynRow → Except Unit (Option PersonRecord)
  | none => .error ()
  | some row =>
    match trimCall row.name, trimCall row.age, trimCall row.email with
    | .ok name, .ok age, .ok email =>
      if falsy name || falsy age || falsy email then
        .ok none
      else
        .ok (some ⟨name.getD [], age.getD [], email.getD []⟩)
    | _, _, _ => .error ()

/-- Body of an HTTP JSON response: a success message or an error message. -/
inductive RespBody
  | message (s : String)
  | error (s : String)
deriving DecidableEq

/-- An HTTP response: status code and JSON body. -/
structure HttpResponse where
  status : Nat
  body : RespBody
deriving DecidableEq

/-- Observable outcome of one request: the response sent, and the list of
calls made to the persistence collaborator `Person.bulkCreate`, each call
carrying the list of records passed to it. -/
structure UploadOutcome where
  response : HttpResponse
  bulkCreateCalls : List (List PersonRecord)
deriving DecidableEq

/-- Modelled from the spec: the upload handler itself is not under `src`
(only its integration tests are), so it is taken from the spec's Upload
Handler contract.  `g` is the CSV parser collaborator turning the uploaded
file's text into rows; `file` is the attached file's content, `none` when
no file was attached.  The handler: with no file, respond 400
"Arquivo CSV é obrigatório!" without parsing; otherwise parse, validate
each row in order keeping the valid records, respond 400
"Nenhum dado válido encontrado no arquivo CSV." if none survive, and
otherwise call `bulkCreate` once with all of them and respond 201
"Dados inseridos com sucesso!". -/
def uploadCsvWith (g : String → List RawRow) (file : Option String) :
    UploadOutcome :=
  match file with
  | none => ⟨⟨400, .error "Arquivo CSV é obrigatório!"⟩, []⟩
  | some content =>
    let rows := g content
    let valid := rows.filterMap processCsvRow
    if valid.isEmpty then
      ⟨⟨400, .error "Nenhum dado válido encontrado no arquivo CSV."⟩, []⟩
    else
      ⟨⟨201, .message "Dados inseridos com sucesso!"⟩, [valid]⟩

/-- The spec's own description of the persisted sequence: walk the rows in
input order, keep each valid row's normalized record, drop rejected rows. -/
def validSubsequence : List RawRow → List PersonRecord
  | [] => []
  | r :: rs =>
    match processCsvRow r with
    | some p => p :: validSubsequence rs
    | none => validSubsequence rs

lemma validSubsequence_eq_filterMap (rows : List RawRow) :
    validSubsequence rows = rows.filterMap processCsvRow := by
  induction rows with
  | nil => rfl
  | cons r rs ih =>
    rw [validSubsequence, List.filterMap_cons]
    cases h : processCsvRow r <;> simp [h, ih]

lemma length_filterMap_of_isSome {α β : Type} {f : α → Option β}
    (l : List α) (h : ∀ r ∈ l, (f r).isSome) :
    (l.filterMap f).length = l.length := by
  induction l with
  | nil => rfl
  | cons a t ih =>
    rw [List.filterMap_cons]
    cases ha : f a with
    | none =>
      have := h a (List.mem_cons_self a t)
      rw [ha] at this
      simp at this
    | some b =>
      simp only [List.length_cons]
      rw [ih fun r hr => h r (List.mem_cons_of_mem a hr)]

/-- C3: with no file attached, the handler makes no persistence call and
responds 400 with error "Arquivo CSV é obrigatório!"; the outcome does not
depend on the CSV parser, so no parsing is attempted. -/
theorem c3_no_file_rejected (g h : String → List RawRow) :
    (uploadCsvWith g none).bulkCreateCalls = [] ∧
    (uploadCsvWith g none).response = ⟨400, .error "Arquivo CSV é obrigatório!"⟩ ∧
    uploadCsvWith g none = uploadCsvWith h none := by
  exact ⟨rfl, rfl, rfl⟩

/-- C5: for every parsed CSV, the records passed to the persistence
collaborator (flattening all `bulkCreate` calls) are exactly the valid
rows' normalized records, in original input order with invalid rows
removed, as described by `validSubsequence`. -/
theorem c5_order_preserved (g : String → List RawRow) (content : String) :
    ((uploadCsvWith g (some content)).bulkCreateCalls).flatten
      = validSubsequence (g content) := by
  rw [validSubsequence_eq_filterMap]
  by_cases h : ((g content).filterMap processCsvRow).isEmpty
  · rw [List.isEmpty_iff] at h
    simp [uploadCsvWith, h]
  · simp [uploadCsvWith, h]

/-- C6: every request results in exactly zero or one call to the
persistence collaborator, never several. -/
theorem c6_at_most_one_bulkCreate (g : String → List RawRow)
    (file : Option String) :
    (uploadCsvWith g file).bulkCreateCalls.length ≤ 1 := by
  cases file with
  | none => simp [uploadCsvWith]
  | some content =>
    by_cases h : ((g content).filterMap processCsvRow).isEmpty <;>
      simp [uploadCsvWith, h]

/-- C7: `processCsvRow` treats a missing field exactly like an empty
string: replacing an absent `name`, `age` or `email` key by the empty
string leaves the result unchanged. -/
theorem c7_missing_eq_empty (n a e : Option Str) :
    processCsvRow ⟨none, a, e⟩ = processCsvRow ⟨some [], a, e⟩ ∧
    processCsvRow ⟨n, none, e⟩ = processCsvRow ⟨n, some [], e⟩ ∧
    processCsvRow ⟨n, a, none⟩ = processCsvRow ⟨n, a, some []⟩ := by
  refine ⟨?_, ?_, ?_⟩ <;> simp [processCsvRow, falsy, trim, List.rdropWhile]

/-- C8: `processCsvRow` is pure and deterministic: the same row always
yields the same result, and in a batch each row's contribution is fixed by
that row alone, independent of the rows before and after it. -/
theorem c8_pure_deterministic (r : RawRow) (pre post : List RawRow) :
    processCsvRow r = processCsvRow r ∧
    (pre ++ r :: post).filterMap processCsvRow
      = pre.filterMap processCsvRow ++ (processCsvRow r).toList
        ++ post.filterMap processCsvRow := by
  refine ⟨rfl, ?_⟩
  rw [List.filterMap_append, List.filterMap_cons]
  cases h : processCsvRow r <;> simp [h]

lemma dropWhile_fixes_rdropWhile (q : Char → Bool) (l : Str) :
    List.dropWhile q (List.rdropWhile q (List.dropWhile q l))
      = List.rdropWhile q (List.dropWhile q l) := by
  rw [List.dropWhile_eq_self_iff]
  intro hl
  have hpre : List.rdropWhile q (List.dropWhile q l) <+: List.dropWhile q l :=
    List.rdropWhile_prefix q (List.dropWhile q l)
  have hlt : (0 : Nat) < (List.dropWhile q l).length :=
    lt_of_lt_of_le hl hpre.length_le
  have hg := List.dropWhile_get_zero_not (p := q) l hlt
  have heq := hpre.getElem (n := 0) hl
  simp only [List.get_eq_getElem] at hg ⊢
  rw [heq]
  exact hg

lemma trim_idem (s : Str) : trim (trim s) = trim s := by
  unfold trim
  rw [dropWhile_fixes_rdropWhile, List.rdropWhile_idempotent]

lemma processCsvRow_eq_some_iff (row : RawRow) (p : PersonRecord) :
    processCsvRow row = some p ↔
    ∃ n a e, row.name = some n ∧ row.age = some a ∧ row.email = some e ∧
      trim n ≠ [] ∧ trim a ≠ [] ∧ trim e ≠ [] ∧
      p = ⟨trim n, trim a, trim e⟩ := by
  obtain ⟨rn, ra, re⟩ := row
  cases rn <;> cases ra <;> cases re <;>
    simp [processCsvRow, falsy, List.isEmpty_iff]
  constructor
  · rintro ⟨⟨⟨h1, h2⟩, h3⟩, h4⟩
    exact ⟨h1, h2, h3, h4.symm⟩
  · rintro ⟨h1, h2, h3, h4⟩
    exact ⟨⟨⟨h1, h2⟩, h3⟩, h4.symm⟩

/-- C1: a row in which `name`, `age` or `email` is absent or trims to the
empty string is rejected (`processCsvRow` returns `none`); a row whose
three fields all trim to non-empty strings yields exactly the record of
the trimmed values. -/
theorem c1_validation_rule (row : RawRow) :
    ((row.name = none ∨ (∃ s, row.name = some s ∧ trim s = []) ∨
      row.age = none ∨ (∃ s, row.age = some s ∧ trim s = []) ∨
      row.email = none ∨ (∃ s, row.email = some s ∧ trim s = [])) →
      processCsvRow row = none) ∧
    (∀ n a e, row.name = some n → row.age = some a → row.email = some e →
      trim n ≠ [] → trim a ≠ [] → trim e ≠ [] →
      processCsvRow row = some ⟨trim n, trim a, trim e⟩) := by
  constructor
  · rintro (h | ⟨s, hs, hts⟩ | h | ⟨s, hs, hts⟩ | h | ⟨s, hs, hts⟩)
    · simp [processCsvRow, falsy, h]
    · simp [processCsvRow, falsy, hs, hts, List.isEmpty_iff]
    · simp [processCsvRow, falsy, h]
    · simp [processCsvRow, falsy, hs, hts, List.isEmpty_iff]
    · simp [processCsvRow, falsy, h]
    · simp [processCsvRow, falsy, hs, hts, List.isEmpty_iff]
  · intro n a e hn ha he htn hta hte
    simp [processCsvRow, falsy, hn, ha, he, List.isEmpty_iff, htn, hta, hte]

/-- Witness for C1 at concrete rows: a row with an absent name is
rejected, and a fully-populated row comes back trimmed. -/
theorem c1_validation_rule_witness :
    processCsvRow ⟨none, some ['1', '9'], some ['a', '@', 'b']⟩ = none ∧
    processCsvRow ⟨some [' ', 'x', ' '], some ['1', '9'], some ['a', '@', 'b']⟩
      = some ⟨trim [' ', 'x', ' '], trim ['1', '9'], trim ['a', '@', 'b']⟩ :=
  ⟨(c1_validation_rule ⟨none, some ['1', '9'], some ['a', '@', 'b']⟩).1
      (Or.inl rfl),
   (c1_validation_rule
      ⟨some [' ', 'x', ' '], some ['1', '9'], some ['a', '@', 'b']⟩).2
      _ _ _ rfl rfl rfl (by decide) (by decide) (by decide)⟩

/-- C2: when the parsed CSV has n ≥ 1 rows and every row is valid, the
handler calls `bulkCreate` exactly once, with exactly the n normalized
records, and responds 201 "Dados inseridos com sucesso!". -/
theorem c2_upload_all_valid (g : String → List RawRow) (content : String)
    (rows : List RawRow) (hg : g content = rows) (hne : rows ≠ [])
    (hval : ∀ r ∈ rows, (processCsvRow r).isSome) :
    (uploadCsvWith g (some content)).bulkCreateCalls
      = [rows.filterMap processCsvRow] ∧
    (rows.filterMap processCsvRow).length = rows.length ∧
    (uploadCsvWith g (some content)).response
      = ⟨201, .message "Dados inseridos com sucesso!"⟩ := by
  have hlen := length_filterMap_of_isSome rows hval
  have hvne : rows.filterMap processCsvRow ≠ [] := by
    intro h0
    rw [h0] at hlen
    exact hne (List.length_eq_zero.mp hlen.symm)
  have hemp : ¬ ((rows.filterMap processCsvRow).isEmpty = true) := by
    rw [List.isEmpty_iff]
    exact hvne
  refine ⟨?_, hlen, ?_⟩ <;> simp [uploadCsvWith, hg, hemp]

def sampleRows : List RawRow :=
  [⟨some ['a'], some ['1'], some ['e']⟩,
   ⟨some [' ', 'b'], some ['2', '1'], some ['f']⟩]

/-- Witness for C2 on a concrete two-row all-valid CSV. -/
theorem c2_upload_all_valid_witness :
    (uploadCsvWith (fun _ => sampleRows) (some "a,1,e")).bulkCreateCalls
      = [sampleRows.filterMap processCsvRow] ∧
    (sampleRows.filterMap processCsvRow).length = sampleRows.length ∧
    (uploadCsvWith (fun _ => sampleRows) (some "a,1,e")).response
      = ⟨201, .message "Dados inseridos com sucesso!"⟩ :=
  c2_upload_all_valid (fun _ => sampleRows) "a,1,e" sampleRows rfl
    (by decide) (by decide)

/-- C4: when validation leaves zero valid rows (every row rejected, or no
data rows at all), the handler makes no persistence call and responds 400
"Nenhum dado válido encontrado no arquivo CSV.". -/
theorem c4_no_valid_rows (g : String → List RawRow) (content : String)
    (h : (g content).filterMap processCsvRow = []) :
    (uploadCsvWith g (some content)).bulkCreateCalls = [] ∧
    (uploadCsvWith g (some content)).response
      = ⟨400, .error "Nenhum dado válido encontrado no arquivo CSV."⟩ := by
  constructor <;> simp [uploadCsvWith, h]

/-- Witness for C4: a one-row CSV whose only row has a blank name. -/
theorem c4_no_valid_rows_witness :
    (uploadCsvWith (fun _ => [⟨some [' '], some ['1'], some ['e']⟩])
        (some " ,1,e")).bulkCreateCalls = [] ∧
    (uploadCsvWith (fun _ => [⟨some [' '], some ['1'], some ['e']⟩])
        (some " ,1,e")).response
      = ⟨400, .error "Nenhum dado válido encontrado no arquivo CSV."⟩ :=
  c4_no_valid_rows (fun _ => [⟨some [' '], some ['1'], some ['e']⟩])
    " ,1,e" (by decide)

/-- C9: every record accepted by `processCsvRow` satisfies the
PersonRecord invariant: the three fields are non-empty and already
trimmed (each equals its own trim). -/
theorem c9_record_invariant (row : RawRow) (p : PersonRecord)
    (h : processCsvRow row = some p) :
    p.name ≠ [] ∧ trim p.name = p.name ∧
    p.age ≠ [] ∧ trim p.age = p.age ∧
    p.email ≠ [] ∧ trim p.email = p.email := by
  rw [processCsvRow_eq_some_iff] at h
  obtain ⟨n, a, e, _, _, _, hn, ha, he, hp⟩ := h
  subst hp
  exact ⟨hn, trim_idem n, ha, trim_idem a, he, trim_idem e⟩

/-- Witness for C9 at a concrete accepted row. -/
theorem c9_record_invariant_witness :
    (PersonRecord.mk ['x'] ['1'] ['e']).name ≠ [] ∧
    trim (PersonRecord.mk ['x'] ['1'] ['e']).name
      = (PersonRecord.mk ['x'] ['1'] ['e']).name ∧
    (PersonRecord.mk ['x'] ['1'] ['e']).age ≠ [] ∧
    trim (PersonRecord.mk ['x'] ['1'] ['e']).age
      = (PersonRecord.mk ['x'] ['1'] ['e']).age ∧
    (PersonRecord.mk ['x'] ['1'] ['e']).email ≠ [] ∧
    trim (PersonRecord.mk ['x'] ['1'] ['e']).email
      = (PersonRecord.mk ['x'] ['1'] ['e']).email :=
  c9_record_invariant ⟨some [' ', 'x'], some ['1'], some ['e']⟩
    ⟨['x'], ['1'], ['e']⟩ (by decide)

/-- C10: `processCsvRow` is total only on non-nullish rows whose present
fields are strings: a nullish argument throws a TypeError, a present
non-string field value throws a TypeError, and otherwise the call
returns normally. -/
theorem c10_dyn_type_safety (row : DynRow) :
    processCsvRowDyn none = .error () ∧
    ((row.name = .nonString ∨ row.age = .nonString ∨ row.email = .nonString) →
      processCsvRowDyn (some row) = .error ()) ∧
    ((row.name ≠ .nonString ∧ row.age ≠ .nonString ∧ row.email ≠ .nonString) →
      ∃ v, processCsvRowDyn (some row) = .ok v) := by
  obtain ⟨n, a, e⟩ := row
  refine ⟨rfl, ?_, ?_⟩ <;>
    cases n <;> cases a <;> cases e <;>
      simp [processCsvRowDyn, trimCall] <;>
      split <;> simp

/-- Witness for C10: a row with a numeric-typed name throws, a row whose
name is nullish and other fields strings returns normally. -/
theorem c10_dyn_type_safety_witness :
    processCsvRowDyn (some ⟨.nonString, .str ['1'], .str ['e']⟩)
      = .error () ∧
    ∃ v, processCsvRowDyn (some ⟨.nullish, .str ['1'], .str ['e']⟩)
      = .ok v :=
  ⟨(c10_dyn_type_safety ⟨.nonString, .str ['1'], .str ['e']⟩).2.1
      (Or.inl rfl),
   (c10_dyn_type_safety ⟨.nullish, .str ['1'], .str ['e']⟩).2.2
      (by decide)⟩
